import Mathlib

/-!
Shallow embedding of the USB passthrough device of the repository
(`Source/Core/Core/IOS/USB/LibusbDevice.cpp`), together with theorems
checking the specification's statements about it.

The embedding models the `LibusbDevice` class, its nested
`TransferEndpoint` tracker, and the completion callbacks.  The host USB
stack (libusb) is modelled as an oracle structure whose fields give the
result codes of the host calls; observable side effects (host calls,
IPC replies, guest-memory writebacks, log lines) are recorded as an
event list.
-/

namespace LibusbDev

/-- Modelled from the spec: the IPC success return code is zero (the header
defining `IPC_SUCCESS` is outside the given sources; the spec requires the
success value 0). -/
def IPC_SUCCESS : Int := 0

/-- Modelled from the spec: the "no such entry" IPC error code
(`IPC_ENOENT`, defined in a header outside the given sources); a small
negative integer distinct from the generic transfer-failure codes. -/
def IPC_ENOENT : Int := -6

/-- Modelled from the spec: libusb error code for "entity not found"
(value from the libusb public API, outside the given sources). -/
def LIBUSB_ERROR_NOT_FOUND : Int := -5

/-- Modelled from the spec: libusb error code for "no such device". -/
def LIBUSB_ERROR_NO_DEVICE : Int := -4

/-- Modelled from the spec: libusb error code for "operation not supported". -/
def LIBUSB_ERROR_NOT_SUPPORTED : Int := -12

/-- Host transfer status (`libusb_transfer_status`). -/
inductive TransferStatus
  | completed
  | error
  | cancelled
  | timedOut
  | overflow
  | stall
  | noDevice
  deriving DecidableEq, Repr

/-- Host transfer type (`libusb_transfer_type`). -/
inductive TransferType
  | control
  | isochronous
  | bulk
  | interrupt
  deriving DecidableEq, Repr

/-- Control message command (`USB::CtrlMessage`): setup-packet fields,
transfer length, guest data address and the originating IOS request. -/
structure CtrlMessage where
  request_type : Nat
  request : Nat
  value : Nat
  index : Nat
  length : Nat
  data_address : Nat
  ios_request : Nat
  deriving DecidableEq, Repr

/-- Bulk message command (`USB::BulkMessage`). -/
structure BulkMessage where
  endpoint : Nat
  length : Nat
  data_address : Nat
  ios_request : Nat
  deriving DecidableEq, Repr

/-- Interrupt message command (`USB::IntrMessage`). -/
structure IntrMessage where
  endpoint : Nat
  length : Nat
  data_address : Nat
  ios_request : Nat
  deriving DecidableEq, Repr

/-- Isochronous message command (`USB::IsoMessage`): endpoint, total
length, per-packet sizes and packet count. -/
structure IsoMessage where
  endpoint : Nat
  length : Nat
  num_packets : Nat
  packet_sizes : List Nat
  data_address : Nat
  ios_request : Nat
  deriving DecidableEq, Repr

/-- A tracked transfer command (`USB::TransferCommand` and its concrete
subclasses). -/
inductive TransferCommand
  | ctrl (msg : CtrlMessage)
  | bulk (msg : BulkMessage)
  | intr (msg : IntrMessage)
  | iso (msg : IsoMessage)
  deriving DecidableEq, Repr

/-- A host transfer object (`libusb_transfer`) as seen by a completion
callback: its identity (the pointer, modelled as a number), endpoint,
type, terminal status, lengths, and the per-packet actual lengths for
isochronous transfers. -/
structure LibusbTransfer where
  handle : Nat
  endpoint : Nat
  ttype : TransferType
  status : TransferStatus
  length : Int
  actual_length : Int
  iso_packet_actual_lengths : List Nat
  deriving DecidableEq, Repr

/-- Guest-memory writeback performed by a completion function
(the lambdas passed to `HandleTransfer`). -/
inductive Writeback
  | fillBuffer (len : Int)
  | setPacketReturnValue (i : Nat) (len : Nat)
  deriving DecidableEq, Repr

/-- Observable side effects of the device operations. -/
inductive Event
  | writeback (w : Writeback)
  | onTransferComplete (cmd : TransferCommand) (rv : Int)
  | enqueueReply (ios_request : Nat) (rv : Int)
  | submitHostTransfer (handle : Nat)
  | cancelHostTransfer (handle : Nat)
  | hostSetConfiguration (config : Nat)
  | hostSetAltSetting (iface : Nat) (alt : Nat)
  | hostOpen
  | hostDetachKernelDriver (iface : Nat)
  | hostClaimInterface (iface : Nat)
  | hostReleaseInterface (iface : Nat)
  | log (msg : String)
  deriving DecidableEq, Repr

/-- The per-endpoint registry of in-flight transfers
(`LibusbDevice::TransferEndpoint`): an association list from the host
transfer handle to the owning command, with unique keys (a `std::map`). -/
structure TransferEndpoint where
  m_transfers : List (Nat × TransferCommand)
  deriving DecidableEq, Repr

/-- `TransferEndpoint::AddTransfer`: `m_transfers.emplace(transfer, cmd)`.
`std::map::emplace` inserts only if the key is not already present. -/
def TransferEndpoint.AddTransfer (ep : TransferEndpoint) (handle : Nat)
    (command : TransferCommand) : TransferEndpoint :=
  if (ep.m_transfers.lookup handle).isSome then ep
  else ⟨(handle, command) :: ep.m_transfers⟩

/-- Return value computed by the status switch in
`TransferEndpoint::HandleTransfer`: `completed` defers to the supplied
completion function's value; the five failure statuses map to `-7004`
for a stall and `-5` otherwise; `no device` maps to `IPC_ENOENT`. -/
def handleTransferReturnValue (status : TransferStatus) (fnValue : Int) : Int :=
  match status with
  | .completed => fnValue
  | .error | .cancelled | .timedOut | .overflow | .stall =>
      if status = .stall then -7004 else -5
  | .noDevice => IPC_ENOENT

/-- Events emitted by the status switch: the completion function's
writebacks on `completed`, an error log line for the five failure
statuses, nothing for `no device`. -/
def handleTransferStatusEvents (status : TransferStatus)
    (fnWritebacks : List Writeback) : List Event :=
  match status with
  | .completed => fnWritebacks.map Event.writeback
  | .error | .cancelled | .timedOut | .overflow | .stall =>
      [Event.log "transfer failed"]
  | .noDevice => []

/-- `TransferEndpoint::HandleTransfer`: look the transfer up in the
tracker; if absent, log `No such transfer` and do nothing; if present,
classify the status, dispatch `cmd.OnTransferComplete(return_value)` and
erase the entry.  The completion function `fn` returns the computed
return value together with the guest-memory writebacks it performs. -/
def TransferEndpoint.HandleTransfer (ep : TransferEndpoint)
    (transfer : LibusbTransfer)
    (fn : TransferCommand → Int × List Writeback) :
    TransferEndpoint × List Event :=
  match ep.m_transfers.lookup transfer.handle with
  | none => (ep, [Event.log "No such transfer"])
  | some cmd =>
      let fnResult := fn cmd
      let return_value := handleTransferReturnValue transfer.status fnResult.1
      (⟨ep.m_transfers.filter (fun p => p.1 ≠ transfer.handle)⟩,
       handleTransferStatusEvents transfer.status fnResult.2 ++
         [Event.onTransferComplete cmd return_value])

/-- `TransferEndpoint::CancelTransfers`: if the tracker is empty, return
immediately; otherwise request host cancellation of every tracked
transfer.  No entry is removed here. -/
def TransferEndpoint.CancelTransfers (ep : TransferEndpoint) : List Event :=
  if ep.m_transfers.isEmpty then []
  else Event.log "cancelling transfers" ::
    ep.m_transfers.map (fun p => Event.cancelHostTransfer p.1)

/-- The completion lambda of `LibusbDevice::CtrlTransferCallback`:
`FillBuffer(data, actual_length)` then return `transfer->length`
(the total transfer length including the setup packet). -/
def ctrlTransferFn (transfer : LibusbTransfer) (_cmd : TransferCommand) :
    Int × List Writeback :=
  (transfer.length, [Writeback.fillBuffer transfer.actual_length])

/-- The completion lambda of `LibusbDevice::TransferCallback`: for an
isochronous transfer, fill the buffer with `iso_msg.length` bytes, write
each packet's host-reported actual length back via
`SetPacketReturnValue`, and return `IPC_SUCCESS`; otherwise fill the
buffer with `actual_length` bytes and return `actual_length`.  The
source casts the command to `IsoMessage` in the isochronous branch; the
non-`iso` case of that branch is unreachable in the program (commands
and transfers are paired at submission) and is modelled as a bare
`IPC_SUCCESS` with no writeback. -/
def transferFn (transfer : LibusbTransfer) (cmd : TransferCommand) :
    Int × List Writeback :=
  match transfer.ttype with
  | .isochronous =>
      match cmd with
      | .iso msg =>
          (IPC_SUCCESS,
           Writeback.fillBuffer (Int.ofNat msg.length) ::
             (List.range msg.num_packets).map (fun i =>
               Writeback.setPacketReturnValue i
                 (transfer.iso_packet_actual_lengths.getD i 0)))
      | _ => (IPC_SUCCESS, [])
  | _ => (transfer.actual_length, [Writeback.fillBuffer transfer.actual_length])

/-- The device identifier computed in the `LibusbDevice` constructor:
`(u64)vid << 32 | (u64)pid << 16 | (u64)bus << 8 | (u64)addr`, as 64-bit
unsigned arithmetic. -/
def computeDeviceId (vid pid bus addr : Nat) : Nat :=
  (vid <<< 32 ||| pid <<< 16 ||| bus <<< 8 ||| addr) % 2 ^ 64

/-- Opaque payload of a `libusb_endpoint_descriptor` (relayed to the
guest unmodified by `memcpy`). -/
structure EndpointDescriptor where
  payload : Nat
  deriving DecidableEq, Repr

/-- One alternate setting of an interface
(`libusb_interface_descriptor`): its endpoint array, plus an opaque
payload for the fields that are only copied. -/
structure InterfaceAltSetting where
  payload : Nat
  endpoint : List EndpointDescriptor
  deriving DecidableEq, Repr

/-- One interface of a configuration (`libusb_interface`): its alternate
settings; `num_altsetting` is the length of the array. -/
structure LibusbInterface where
  altsetting : List InterfaceAltSetting
  deriving DecidableEq, Repr

/-- A parsed configuration descriptor (`libusb_config_descriptor`): its
interface array; `bNumInterfaces` is the length of the array (libusb
guarantees the array has exactly `bNumInterfaces` entries). -/
structure ConfigDescriptorData where
  payload : Nat
  interfaces : List LibusbInterface
  deriving DecidableEq, Repr

/-- `LibusbConfigDescriptor`: holds the parsed descriptor, or nothing
when `libusb_get_config_descriptor` failed in the constructor. -/
structure LibusbConfigDescriptor where
  m_descriptor : Option ConfigDescriptorData
  deriving DecidableEq, Repr

/-- `LibusbConfigDescriptor::LibusbConfigDescriptor`: store the host
result, or a null descriptor when the host read failed. -/
def makeLibusbConfigDescriptor (hostResult : Except Int ConfigDescriptorData) :
    LibusbConfigDescriptor :=
  match hostResult with
  | .ok d => ⟨some d⟩
  | .error _ => ⟨none⟩

/-- `LibusbConfigDescriptor::IsValid`: the descriptor is non-null. -/
def LibusbConfigDescriptor.IsValid (d : LibusbConfigDescriptor) : Bool :=
  d.m_descriptor.isSome

/-- The mutable state of a `LibusbDevice`: attachment flag, active
interface, whether the host device handle is open (`m_handle` non-null),
the per-endpoint transfer trackers (a `std::map<u8, TransferEndpoint>`),
and the cached configuration descriptors. -/
structure LibusbDevice where
  m_device_attached : Bool
  m_active_interface : Nat
  m_handle_open : Bool
  m_transfer_endpoints : List (Nat × TransferEndpoint)
  m_config_descriptors : List LibusbConfigDescriptor
  deriving DecidableEq, Repr

/-- `std::map::operator[]` followed by a mutation: update the endpoint's
entry in place, default-constructing it first when absent. -/
def updateEndpoint : List (Nat × TransferEndpoint) → Nat →
    (TransferEndpoint → TransferEndpoint) → List (Nat × TransferEndpoint)
  | [], k, f => [(k, f ⟨[]⟩)]
  | (k', ep) :: rest, k, f =>
      if k' = k then (k', f ep) :: rest else (k', ep) :: updateEndpoint rest k f

/-- The transfers currently tracked for an endpoint (empty both when the
endpoint has no map entry and when its entry tracks nothing). -/
def LibusbDevice.trackedTransfers (s : LibusbDevice) (endpoint : Nat) :
    List (Nat × TransferCommand) :=
  match s.m_transfer_endpoints.lookup endpoint with
  | none => []
  | some ep => ep.m_transfers

/-- The host USB stack, modelled as an oracle giving the result code of
each host call the device makes. -/
structure Host where
  open_result : Int
  set_configuration : Nat → Int
  set_alt_setting : Nat → Nat → Int
  detach_kernel_driver : Nat → Int
  claim_interface : Nat → Int
  release_interface : Nat → Int
  submit_transfer : Nat → Int

/-- `LibusbDevice::GetConfigurations`: copy every valid cached config
descriptor, skipping (with a logged error) the invalid ones. -/
def LibusbDevice.GetConfigurations (s : LibusbDevice) : List ConfigDescriptorData :=
  s.m_config_descriptors.filterMap (fun cd => cd.m_descriptor)

/-- `LibusbDevice::GetInterfaces`: an out-of-range or invalid config
index yields an empty list (with a logged error); otherwise every
alternate setting of every interface of the configuration is copied. -/
def LibusbDevice.GetInterfaces (s : LibusbDevice) (config : Nat) :
    List InterfaceAltSetting :=
  match s.m_config_descriptors[config]? with
  | none => []
  | some cd =>
      match cd.m_descriptor with
      | none => []
      | some d => d.interfaces.flatMap (fun i => i.altsetting)

/-- `LibusbDevice::GetEndpoints`: an out-of-range or invalid config
index yields an empty list (with a logged error).  The interface and
alternate-setting indices, however, are only checked by `_assert_`
(which logs but does not return), after which the source indexes the
host arrays; an out-of-range index there is an out-of-bounds access,
modelled as `none`. -/
def LibusbDevice.GetEndpoints (s : LibusbDevice)
    (config interface_number alt_setting : Nat) :
    Option (List EndpointDescriptor) :=
  match s.m_config_descriptors[config]? with
  | none => some []
  | some cd =>
      match cd.m_descriptor with
      | none => some []
      | some d =>
          match d.interfaces[interface_number]? with
          | none => none
          | some intf =>
              match intf.altsetting[alt_setting]? with
              | none => none
              | some alts => some alts.endpoint

/-- `LibusbDevice::CancelTransfer`: "no such entry" when the endpoint
has no entry in the endpoint map, else request cancellation of its
tracked transfers and return success.  The device state is returned
unchanged: the method removes nothing. -/
def LibusbDevice.CancelTransfer (s : LibusbDevice) (endpoint : Nat) :
    LibusbDevice × Int × List Event :=
  match s.m_transfer_endpoints.lookup endpoint with
  | none => (s, IPC_ENOENT, [Event.log "Cancelling transfers"])
  | some ep => (s, IPC_SUCCESS,
      Event.log "Cancelling transfers" :: ep.CancelTransfers)

/-- `LibusbDevice::DetachInterface`: fails with `-1` without a host
handle; releases the active interface; a negative release result other
than `LIBUSB_ERROR_NO_DEVICE` is returned, else `0`.  No field of the
device is modified. -/
def LibusbDevice.DetachInterface (host : Host) (s : LibusbDevice) :
    Int × List Event :=
  if ¬ s.m_handle_open then
    (-1, [Event.log "Cannot detach without a valid device handle"])
  else
    let ret := host.release_interface s.m_active_interface
    if ret < 0 ∧ ret ≠ LIBUSB_ERROR_NO_DEVICE then
      (ret, [Event.hostReleaseInterface s.m_active_interface,
             Event.log "Failed to release interface"])
    else (0, [Event.hostReleaseInterface s.m_active_interface])

/-- `LibusbDevice::AttachInterface`: fails with `-1` without a host
handle; detaches the kernel driver (tolerating `NOT_FOUND` and
`NOT_SUPPORTED`), claims the interface, and only after a successful
claim assigns `m_active_interface`. -/
def LibusbDevice.AttachInterface (host : Host) (s : LibusbDevice)
    (interface : Nat) : LibusbDevice × Int × List Event :=
  if ¬ s.m_handle_open then
    (s, -1, [Event.log "Cannot attach without a valid device handle"])
  else
    let ret := host.detach_kernel_driver interface
    if ret < 0 ∧ ret ≠ LIBUSB_ERROR_NOT_FOUND ∧ ret ≠ LIBUSB_ERROR_NOT_SUPPORTED then
      (s, ret, [Event.hostDetachKernelDriver interface,
                Event.log "Failed to detach kernel driver"])
    else
      let r := host.claim_interface interface
      if r < 0 then
        (s, r, [Event.hostDetachKernelDriver interface,
                Event.hostClaimInterface interface,
                Event.log "Failed to claim interface"])
      else
        ({s with m_active_interface := interface}, 0,
         [Event.hostDetachKernelDriver interface,
          Event.hostClaimInterface interface])

/-- `m_config_descriptors[0]->Get()->bNumInterfaces` as read by
`ChangeInterface`: `none` models the out-of-bounds access or null
dereference when there is no valid config descriptor 0. -/
def LibusbDevice.numInterfaces0 (s : LibusbDevice) : Option Nat :=
  match s.m_config_descriptors[0]? with
  | none => none
  | some cd => cd.m_descriptor.map (fun d => d.interfaces.length)

/-- `LibusbDevice::ChangeInterface`: not-found when unattached or the
interface index is out of range; otherwise detach then attach, failing
fast (without attaching) when the detach result is negative. -/
def LibusbDevice.ChangeInterface (host : Host) (s : LibusbDevice)
    (interface : Nat) : Option (LibusbDevice × Int × List Event) :=
  if ¬ s.m_device_attached then some (s, LIBUSB_ERROR_NOT_FOUND, [])
  else
    match s.numInterfaces0 with
    | none => none
    | some n =>
        if interface ≥ n then some (s, LIBUSB_ERROR_NOT_FOUND, [])
        else
          let det := LibusbDevice.DetachInterface host s
          if det.1 < 0 then some (s, det.1, det.2)
          else
            let att := LibusbDevice.AttachInterface host s interface
            some (att.1, att.2.1, det.2 ++ att.2.2)

/-- `LibusbDevice::SetAltSetting`: only valid once attached; forwards to
the host.  No field of the device is modified. -/
def LibusbDevice.SetAltSetting (host : Host) (s : LibusbDevice)
    (alt_setting : Nat) : Int × List Event :=
  if ¬ s.m_device_attached then (LIBUSB_ERROR_NOT_FOUND, [])
  else (host.set_alt_setting s.m_active_interface alt_setting,
        [Event.hostSetAltSetting s.m_active_interface alt_setting])

/-- `LibusbDevice::Attach`: attached with a different interface requested
changes interface; attached with the active interface requested is a
no-op returning `true`; unattached opens the host device, attaches the
interface and only then sets `m_device_attached`. -/
def LibusbDevice.Attach (host : Host) (s : LibusbDevice) (interface : Nat) :
    Option (LibusbDevice × Bool × List Event) :=
  if s.m_device_attached ∧ interface ≠ s.m_active_interface then
    (LibusbDevice.ChangeInterface host s interface).map
      (fun r => (r.1, r.2.1 == 0, r.2.2))
  else if s.m_device_attached then some (s, true, [])
  else
    let s0 := {s with m_device_attached := false}
    if host.open_result ≠ 0 then
      some (s0, false, [Event.hostOpen, Event.log "Failed to open"])
    else
      let s1 := {s0 with m_handle_open := true}
      let att := LibusbDevice.AttachInterface host s1 interface
      if att.2.1 ≠ 0 then some (att.1, false, Event.hostOpen :: att.2.2)
      else some ({att.1 with m_device_attached := true}, true,
                 Event.hostOpen :: att.2.2)

/-- Modelled from the spec: the `USBHDR` macro (from a USB header outside
the given sources) packs direction, type, recipient and request into the
16-bit composite `((dir << 7 | type << 5 | recipient) << 8) | request`
that `SubmitTransfer` switches on. -/
def USBHDR (dir typ recipient request : Nat) : Nat :=
  ((dir <<< 7 ||| typ <<< 5 ||| recipient) <<< 8 ||| request) % 2 ^ 16

/-- Modelled from the spec: host-to-device direction (USB standard value 0). -/
def DIR_HOST2DEVICE : Nat := 0

/-- Modelled from the spec: standard request type (USB standard value 0). -/
def TYPE_STANDARD : Nat := 0

/-- Modelled from the spec: device recipient (USB standard value 0). -/
def REC_DEVICE : Nat := 0

/-- Modelled from the spec: interface recipient (USB standard value 1). -/
def REC_INTERFACE : Nat := 1

/-- Modelled from the spec: the SET_CONFIGURATION standard request
(USB standard value 9). -/
def REQUEST_SET_CONFIGURATION : Nat := 9

/-- Modelled from the spec: the SET_INTERFACE standard request
(USB standard value 11). -/
def REQUEST_SET_INTERFACE : Nat := 11

/-- The composite `(cmd->request_type << 8) | cmd->request` that the
control-transfer `SubmitTransfer` switches on. -/
def ctrlHeader (cmd : CtrlMessage) : Nat :=
  cmd.request_type <<< 8 ||| cmd.request

/-- `LibusbDevice::SubmitTransfer(CtrlMessage)`: rejects when unattached;
intercepts the standard SET_INTERFACE and SET_CONFIGURATION requests and
handles them via host configuration calls (enqueueing an immediate IPC
reply worth `cmd->length` on success); any other control request is
built into a host control transfer, tracked under endpoint 0, and
submitted.  `transfer_handle` models the freshly allocated
`libusb_transfer` pointer. -/
def LibusbDevice.SubmitCtrlTransfer (host : Host) (s : LibusbDevice)
    (cmd : CtrlMessage) (transfer_handle : Nat) :
    Option (LibusbDevice × Int × List Event) :=
  if ¬ s.m_device_attached then some (s, LIBUSB_ERROR_NOT_FOUND, [])
  else if ctrlHeader cmd =
      USBHDR DIR_HOST2DEVICE TYPE_STANDARD REC_INTERFACE REQUEST_SET_INTERFACE then
    let step := fun (s1 : LibusbDevice) (ev1 : List Event) =>
      let alt := LibusbDevice.SetAltSetting host s1 (cmd.value % 256)
      if alt.1 = 0 then
        some (s1, alt.1,
              ev1 ++ alt.2 ++
                [Event.enqueueReply cmd.ios_request (Int.ofNat cmd.length)])
      else some (s1, alt.1, ev1 ++ alt.2)
    if cmd.index % 256 ≠ s.m_active_interface then
      match LibusbDevice.ChangeInterface host s (cmd.index % 256) with
      | none => none
      | some r =>
          if r.2.1 < 0 then
            some (r.1, r.2.1, r.2.2 ++ [Event.log "Failed to change interface"])
          else step r.1 r.2.2
    else step s []
  else if ctrlHeader cmd =
      USBHDR DIR_HOST2DEVICE TYPE_STANDARD REC_DEVICE REQUEST_SET_CONFIGURATION then
    let ret := host.set_configuration cmd.value
    if ret = 0 then
      some (s, ret,
            [Event.hostSetConfiguration cmd.value,
             Event.enqueueReply cmd.ios_request (Int.ofNat cmd.length)])
    else some (s, ret, [Event.hostSetConfiguration cmd.value])
  else
    let eps := updateEndpoint s.m_transfer_endpoints 0
      (fun ep => ep.AddTransfer transfer_handle (.ctrl cmd))
    some ({s with m_transfer_endpoints := eps},
          host.submit_transfer transfer_handle,
          [Event.submitHostTransfer transfer_handle])

/-- `LibusbDevice::SubmitTransfer(BulkMessage)`: rejects when unattached;
otherwise tracks the transfer under the command's endpoint and submits
it to the host. -/
def LibusbDevice.SubmitBulkTransfer (host : Host) (s : LibusbDevice)
    (cmd : BulkMessage) (transfer_handle : Nat) :
    LibusbDevice × Int × List Event :=
  if ¬ s.m_device_attached then (s, LIBUSB_ERROR_NOT_FOUND, [])
  else
    let eps := updateEndpoint s.m_transfer_endpoints cmd.endpoint
      (fun ep => ep.AddTransfer transfer_handle (.bulk cmd))
    ({s with m_transfer_endpoints := eps},
     host.submit_transfer transfer_handle,
     [Event.submitHostTransfer transfer_handle])

/-- `LibusbDevice::SubmitTransfer(IntrMessage)`: as for bulk. -/
def LibusbDevice.SubmitIntrTransfer (host : Host) (s : LibusbDevice)
    (cmd : IntrMessage) (transfer_handle : Nat) :
    LibusbDevice × Int × List Event :=
  if ¬ s.m_device_attached then (s, LIBUSB_ERROR_NOT_FOUND, [])
  else
    let eps := updateEndpoint s.m_transfer_endpoints cmd.endpoint
      (fun ep => ep.AddTransfer transfer_handle (.intr cmd))
    ({s with m_transfer_endpoints := eps},
     host.submit_transfer transfer_handle,
     [Event.submitHostTransfer transfer_handle])

/-- `LibusbDevice::SubmitTransfer(IsoMessage)`: as for bulk. -/
def LibusbDevice.SubmitIsoTransfer (host : Host) (s : LibusbDevice)
    (cmd : IsoMessage) (transfer_handle : Nat) :
    LibusbDevice × Int × List Event :=
  if ¬ s.m_device_attached then (s, LIBUSB_ERROR_NOT_FOUND, [])
  else
    let eps := updateEndpoint s.m_transfer_endpoints cmd.endpoint
      (fun ep => ep.AddTransfer transfer_handle (.iso cmd))
    ({s with m_transfer_endpoints := eps},
     host.submit_transfer transfer_handle,
     [Event.submitHostTransfer transfer_handle])

/-- `LibusbDevice::CtrlTransferCallback`: dispatch the completed host
transfer through endpoint 0's tracker with the control completion
lambda. -/
def LibusbDevice.CtrlTransferCallback (s : LibusbDevice)
    (transfer : LibusbTransfer) : LibusbDevice × List Event :=
  let ep := (s.m_transfer_endpoints.lookup 0).getD ⟨[]⟩
  let res := ep.HandleTransfer transfer (ctrlTransferFn transfer)
  ({s with m_transfer_endpoints :=
      updateEndpoint s.m_transfer_endpoints 0 (fun _ => res.1)}, res.2)

/-- `LibusbDevice::TransferCallback`: dispatch the completed host
transfer through the tracker of the transfer's endpoint with the
bulk/interrupt/isochronous completion lambda. -/
def LibusbDevice.TransferCallback (s : LibusbDevice)
    (transfer : LibusbTransfer) : LibusbDevice × List Event :=
  let ep := (s.m_transfer_endpoints.lookup transfer.endpoint).getD ⟨[]⟩
  let res := ep.HandleTransfer transfer (transferFn transfer)
  ({s with m_transfer_endpoints :=
      updateEndpoint s.m_transfer_endpoints transfer.endpoint (fun _ => res.1)},
   res.2)

/-- Descriptor caching in the `LibusbDevice` constructor: one
`LibusbConfigDescriptor` per configuration, recording the host read
result; a failed read is recorded as invalid, never a construction
failure. -/
def constructConfigDescriptors
    (hostResults : List (Except Int ConfigDescriptorData)) :
    List LibusbConfigDescriptor :=
  hostResults.map makeLibusbConfigDescriptor

/-- The terminal-callback dispatches (`cmd.OnTransferComplete(rv)` calls)
recorded in an event list. -/
def dispatchedCompletions (evs : List Event) : List (TransferCommand × Int) :=
  evs.filterMap (fun e =>
    match e with
    | .onTransferComplete cmd rv => some (cmd, rv)
    | _ => none)

/-! Helper lemmas. -/

theorem two_pow_mul_lor_eq_add (n : Nat) :
    ∀ a b : Nat, b < 2 ^ n → ((2 ^ n * a) ||| b) = 2 ^ n * a + b := by
  induction n with
  | zero =>
      intro a b hb
      interval_cases b
      simp
  | succ n ih =>
      intro a b hb
      have h1 : 2 ^ (n + 1) * a = Nat.bit false (2 ^ n * a) := by
        simp [Nat.bit_val]
        ring
      have h2 : b = Nat.bit (decide (b % 2 = 1)) (b / 2) := by
        rcases Nat.mod_two_eq_zero_or_one b with h | h <;>
          simp [Nat.bit_val, h] <;> omega
      rw [h1, h2, Nat.lor_bit]
      have h3 : (2 : Nat) ^ (n + 1) = 2 * 2 ^ n := by ring
      have hb2 : b / 2 < 2 ^ n := by omega
      rw [Nat.bit_val, Nat.bit_val, ih a (b / 2) hb2]
      rcases Nat.mod_two_eq_zero_or_one b with h | h <;> simp [h] <;> omega

theorem computeDeviceId_eq_sum (vid pid bus addr : Nat)
    (hv : vid < 2 ^ 16) (hp : pid < 2 ^ 16)
    (hb : bus < 2 ^ 8) (ha : addr < 2 ^ 8) :
    computeDeviceId vid pid bus addr =
      vid * 4294967296 + pid * 65536 + bus * 256 + addr := by
  have e1 : vid <<< 32 ||| pid <<< 16 = 2 ^ 32 * vid + 2 ^ 16 * pid := by
    rw [Nat.shiftLeft_eq, Nat.shiftLeft_eq, Nat.mul_comm vid, Nat.mul_comm pid]
    exact two_pow_mul_lor_eq_add 32 vid (2 ^ 16 * pid) (by omega)
  have e2 : (vid <<< 32 ||| pid <<< 16) ||| bus <<< 8 =
      2 ^ 32 * vid + 2 ^ 16 * pid + 2 ^ 8 * bus := by
    rw [e1, Nat.shiftLeft_eq, Nat.mul_comm bus]
    have h : 2 ^ 32 * vid + 2 ^ 16 * pid = 2 ^ 16 * (2 ^ 16 * vid + pid) := by
      ring
    rw [h, two_pow_mul_lor_eq_add 16 (2 ^ 16 * vid + pid) (2 ^ 8 * bus) (by omega)]
  have e3 : ((vid <<< 32 ||| pid <<< 16) ||| bus <<< 8) ||| addr =
      2 ^ 32 * vid + 2 ^ 16 * pid + 2 ^ 8 * bus + addr := by
    rw [e2]
    have h : 2 ^ 32 * vid + 2 ^ 16 * pid + 2 ^ 8 * bus =
        2 ^ 8 * (2 ^ 24 * vid + 2 ^ 8 * pid + bus) := by ring
    rw [h, two_pow_mul_lor_eq_add 8 (2 ^ 24 * vid + 2 ^ 8 * pid + bus) addr (by omega)]
  unfold computeDeviceId
  rw [e3, Nat.mod_eq_of_lt (by omega)]
  omega

/-- C9: the 64-bit device identifier
`vid << 32 | pid << 16 | bus << 8 | addr` computed in the `LibusbDevice`
constructor is injective on identity tuples whose fields are within
their 16/16/8/8-bit ranges: devices with different tuples receive
different identifiers. -/
theorem computeDeviceId_injective (v1 p1 b1 a1 v2 p2 b2 a2 : Nat)
    (hv1 : v1 < 2 ^ 16) (hp1 : p1 < 2 ^ 16) (hb1 : b1 < 2 ^ 8) (ha1 : a1 < 2 ^ 8)
    (hv2 : v2 < 2 ^ 16) (hp2 : p2 < 2 ^ 16) (hb2 : b2 < 2 ^ 8) (ha2 : a2 < 2 ^ 8)
    (hne : (v1, p1, b1, a1) ≠ (v2, p2, b2, a2)) :
    computeDeviceId v1 p1 b1 a1 ≠ computeDeviceId v2 p2 b2 a2 := by
  intro h
  rw [computeDeviceId_eq_sum v1 p1 b1 a1 hv1 hp1 hb1 ha1,
      computeDeviceId_eq_sum v2 p2 b2 a2 hv2 hp2 hb2 ha2] at h
  have hv : v1 = v2 := by omega
  have hp : p1 = p2 := by omega
  have hbb : b1 = b2 := by omega
  have ha : a1 = a2 := by omega
  exact hne (by rw [hv, hp, hbb, ha])

/-- C9 witness: two devices with identical vendor and product ids but a
different device address receive distinct identifiers. -/
theorem computeDeviceId_injective_witness :
    computeDeviceId 0x057e 0x0306 2 4 ≠ computeDeviceId 0x057e 0x0306 2 5 :=
  computeDeviceId_injective 0x057e 0x0306 2 4 0x057e 0x0306 2 5
    (by decide) (by decide) (by decide) (by decide)
    (by decide) (by decide) (by decide) (by decide) (by decide)

theorem dispatchedCompletions_append (a b : List Event) :
    dispatchedCompletions (a ++ b) =
      dispatchedCompletions a ++ dispatchedCompletions b := by
  simp [dispatchedCompletions]

theorem dispatchedCompletions_statusEvents (st : TransferStatus)
    (wbs : List Writeback) :
    dispatchedCompletions (handleTransferStatusEvents st wbs) = [] := by
  cases st <;>
    simp [handleTransferStatusEvents, dispatchedCompletions, List.filterMap_map,
      Function.comp]

theorem lookup_filter_ne_eq_none (l : List (Nat × TransferCommand)) (t : Nat) :
    (l.filter (fun p => p.1 ≠ t)).lookup t = none := by
  induction l with
  | nil => simp
  | cons hd tl ih =>
      rw [List.filter_cons]
      by_cases h : hd.1 = t
      · simpa [h] using ih
      · have hbeq : (t == hd.1) = false := by
          simp [Ne.symm h]
        simp only [h, decide_not, decide_eq_false_iff_not, not_false_iff,
          Bool.not_false, if_true, List.lookup, hbeq]
        simpa [decide_not] using ih

theorem handleTransfer_not_found (ep : TransferEndpoint)
    (transfer : LibusbTransfer)
    (fn : TransferCommand → Int × List Writeback)
    (h : ep.m_transfers.lookup transfer.handle = none) :
    ep.HandleTransfer transfer fn = (ep, [Event.log "No such transfer"]) := by
  simp [TransferEndpoint.HandleTransfer, h]

/-- C1: for every transfer handle, `TransferEndpoint::HandleTransfer`
dispatches the terminal callback and erases the tracker entry exactly
once: a call that finds the entry dispatches exactly one
`OnTransferComplete` and removes the entry, and a second call with the
same transfer handle finds nothing, logs `No such transfer`, invokes no
callback and leaves the tracker unchanged. -/
theorem handleTransfer_once_then_noop (ep : TransferEndpoint)
    (transfer : LibusbTransfer)
    (fn fn2 : TransferCommand → Int × List Writeback)
    (cmd : TransferCommand)
    (hfound : ep.m_transfers.lookup transfer.handle = some cmd) :
    (dispatchedCompletions (ep.HandleTransfer transfer fn).2).length = 1 ∧
    (ep.HandleTransfer transfer fn).1.m_transfers.lookup transfer.handle
      = none ∧
    (ep.HandleTransfer transfer fn).1.HandleTransfer transfer fn2 =
      ((ep.HandleTransfer transfer fn).1, [Event.log "No such transfer"]) := by
  have h1 : ep.HandleTransfer transfer fn =
      (⟨ep.m_transfers.filter (fun p => p.1 ≠ transfer.handle)⟩,
       handleTransferStatusEvents transfer.status (fn cmd).2 ++
         [Event.onTransferComplete cmd
           (handleTransferReturnValue transfer.status (fn cmd).1)]) := by
    simp [TransferEndpoint.HandleTransfer, hfound]
  have hnone :
      (ep.HandleTransfer transfer fn).1.m_transfers.lookup transfer.handle
        = none := by
    rw [h1]
    exact lookup_filter_ne_eq_none ep.m_transfers transfer.handle
  refine ⟨?_, hnone, ?_⟩
  · rw [h1, dispatchedCompletions_append, dispatchedCompletions_statusEvents]
    simp [dispatchedCompletions]
  · exact handleTransfer_not_found _ transfer fn2 hnone

/-- C1 witness: a concrete tracker with one bulk transfer under handle 5. -/
theorem handleTransfer_once_then_noop_witness :
    (dispatchedCompletions
      ((TransferEndpoint.mk [(5, TransferCommand.bulk ⟨0x81, 64, 0, 0⟩)]).HandleTransfer
        ⟨5, 0x81, .bulk, .completed, 64, 64, []⟩
        (transferFn ⟨5, 0x81, .bulk, .completed, 64, 64, []⟩)).2).length = 1 ∧
    ((TransferEndpoint.mk [(5, TransferCommand.bulk ⟨0x81, 64, 0, 0⟩)]).HandleTransfer
        ⟨5, 0x81, .bulk, .completed, 64, 64, []⟩
        (transferFn ⟨5, 0x81, .bulk, .completed, 64, 64, []⟩)).1.m_transfers.lookup 5
      = none ∧
    ((TransferEndpoint.mk [(5, TransferCommand.bulk ⟨0x81, 64, 0, 0⟩)]).HandleTransfer
        ⟨5, 0x81, .bulk, .completed, 64, 64, []⟩
        (transferFn ⟨5, 0x81, .bulk, .completed, 64, 64, []⟩)).1.HandleTransfer
        ⟨5, 0x81, .bulk, .completed, 64, 64, []⟩
        (transferFn ⟨5, 0x81, .bulk, .completed, 64, 64, []⟩) =
      (((TransferEndpoint.mk [(5, TransferCommand.bulk ⟨0x81, 64, 0, 0⟩)]).HandleTransfer
        ⟨5, 0x81, .bulk, .completed, 64, 64, []⟩
        (transferFn ⟨5, 0x81, .bulk, .completed, 64, 64, []⟩)).1,
       [Event.log "No such transfer"]) :=
  handleTransfer_once_then_noop
    (TransferEndpoint.mk [(5, TransferCommand.bulk ⟨0x81, 64, 0, 0⟩)])
    ⟨5, 0x81, .bulk, .completed, 64, 64, []⟩
    (transferFn ⟨5, 0x81, .bulk, .completed, 64, 64, []⟩)
    (transferFn ⟨5, 0x81, .bulk, .completed, 64, 64, []⟩)
    (TransferCommand.bulk ⟨0x81, 64, 0, 0⟩) (by decide)

/-- C3: for every transfer found by `HandleTransfer`, exactly one
terminal callback is dispatched and its return value is classified from
the host status: `completed` uses the supplied completion function's
value; `error`, `cancelled`, `timed out` and `overflow` map to the
generic code `-5`; `stall` maps to the distinct code `-7004`; and
`no device` maps to `IPC_ENOENT`. -/
theorem handleTransfer_status_classification (ep : TransferEndpoint)
    (transfer : LibusbTransfer)
    (fn : TransferCommand → Int × List Writeback)
    (cmd : TransferCommand)
    (hfound : ep.m_transfers.lookup transfer.handle = some cmd) :
    ∃ rv, dispatchedCompletions (ep.HandleTransfer transfer fn).2 = [(cmd, rv)] ∧
      (transfer.status = .completed → rv = (fn cmd).1) ∧
      (transfer.status = .error ∨ transfer.status = .cancelled ∨
        transfer.status = .timedOut ∨ transfer.status = .overflow → rv = -5) ∧
      (transfer.status = .stall → rv = -7004) ∧
      (transfer.status = .noDevice → rv = IPC_ENOENT) := by
  refine ⟨handleTransferReturnValue transfer.status (fn cmd).1, ?_, ?_, ?_, ?_, ?_⟩
  · have h1 : ep.HandleTransfer transfer fn =
        (⟨ep.m_transfers.filter (fun p => p.1 ≠ transfer.handle)⟩,
         handleTransferStatusEvents transfer.status (fn cmd).2 ++
           [Event.onTransferComplete cmd
             (handleTransferReturnValue transfer.status (fn cmd).1)]) := by
      simp [TransferEndpoint.HandleTransfer, hfound]
    rw [h1, dispatchedCompletions_append, dispatchedCompletions_statusEvents]
    simp [dispatchedCompletions]
  · intro h
    rw [h]
    rfl
  · rintro (h | h | h | h) <;> rw [h] <;> rfl
  · intro h
    rw [h]
    rfl
  · intro h
    rw [h]
    rfl

/-- C3 witness: a stalled interrupt transfer dispatches `-7004`. -/
theorem handleTransfer_status_classification_witness :
    ∃ rv, dispatchedCompletions
        ((TransferEndpoint.mk [(7, TransferCommand.intr ⟨0x81, 8, 0, 0⟩)]).HandleTransfer
          ⟨7, 0x81, .interrupt, .stall, 8, 0, []⟩
          (transferFn ⟨7, 0x81, .interrupt, .stall, 8, 0, []⟩)).2 =
        [(TransferCommand.intr ⟨0x81, 8, 0, 0⟩, rv)] ∧
      ((⟨7, 0x81, .interrupt, .stall, 8, 0, []⟩ : LibusbTransfer).status = .completed →
        rv = (transferFn ⟨7, 0x81, .interrupt, .stall, 8, 0, []⟩
          (TransferCommand.intr ⟨0x81, 8, 0, 0⟩)).1) ∧
      ((⟨7, 0x81, .interrupt, .stall, 8, 0, []⟩ : LibusbTransfer).status = .error ∨
        (⟨7, 0x81, .interrupt, .stall, 8, 0, []⟩ : LibusbTransfer).status = .cancelled ∨
        (⟨7, 0x81, .interrupt, .stall, 8, 0, []⟩ : LibusbTransfer).status = .timedOut ∨
        (⟨7, 0x81, .interrupt, .stall, 8, 0, []⟩ : LibusbTransfer).status = .overflow →
          rv = -5) ∧
      ((⟨7, 0x81, .interrupt, .stall, 8, 0, []⟩ : LibusbTransfer).status = .stall →
        rv = -7004) ∧
      ((⟨7, 0x81, .interrupt, .stall, 8, 0, []⟩ : LibusbTransfer).status = .noDevice →
        rv = IPC_ENOENT) :=
  handleTransfer_status_classification
    (TransferEndpoint.mk [(7, TransferCommand.intr ⟨0x81, 8, 0, 0⟩)])
    ⟨7, 0x81, .interrupt, .stall, 8, 0, []⟩
    (transferFn ⟨7, 0x81, .interrupt, .stall, 8, 0, []⟩)
    (TransferCommand.intr ⟨0x81, 8, 0, 0⟩) (by decide)

theorem getD_lookup_m_transfers (s : LibusbDevice) (e : Nat) :
    ((s.m_transfer_endpoints.lookup e).getD ⟨[]⟩).m_transfers =
      s.trackedTransfers e := by
  unfold LibusbDevice.trackedTransfers
  cases s.m_transfer_endpoints.lookup e <;> simp

/-- C2: when `TransferCallback` handles an isochronous transfer whose
status is `completed`, the value passed to `OnTransferComplete` is
`IPC_SUCCESS` (zero), whatever `actual_length` reports, and every packet
index `i < num_packets` receives a `SetPacketReturnValue(i, len_i)`
writeback carrying the host-reported actual length of packet `i`. -/
theorem transferCallback_iso_completed_zero (s : LibusbDevice)
    (transfer : LibusbTransfer) (msg : IsoMessage)
    (hty : transfer.ttype = .isochronous)
    (hst : transfer.status = .completed)
    (_hlen : transfer.iso_packet_actual_lengths.length = msg.num_packets)
    (hcmd : (s.trackedTransfers transfer.endpoint).lookup transfer.handle =
      some (.iso msg)) :
    dispatchedCompletions (s.TransferCallback transfer).2 =
      [(.iso msg, IPC_SUCCESS)] ∧
    ∀ i, i < msg.num_packets →
      Event.writeback (Writeback.setPacketReturnValue i
          (transfer.iso_packet_actual_lengths.getD i 0)) ∈
        (s.TransferCallback transfer).2 := by
  have hep : ((s.m_transfer_endpoints.lookup transfer.endpoint).getD
      ⟨[]⟩).m_transfers.lookup transfer.handle = some (.iso msg) := by
    rw [getD_lookup_m_transfers]
    exact hcmd
  have hfn : transferFn transfer (.iso msg) =
      (IPC_SUCCESS,
       Writeback.fillBuffer (Int.ofNat msg.length) ::
         (List.range msg.num_packets).map (fun i =>
           Writeback.setPacketReturnValue i
             (transfer.iso_packet_actual_lengths.getD i 0))) := by
    unfold transferFn
    rw [hty]
  have hev : (s.TransferCallback transfer).2 =
      (transferFn transfer (.iso msg)).2.map Event.writeback ++
        [Event.onTransferComplete (.iso msg)
          (handleTransferReturnValue transfer.status
            (transferFn transfer (.iso msg)).1)] := by
    simp only [LibusbDevice.TransferCallback, TransferEndpoint.HandleTransfer, hep,
      hst, handleTransferStatusEvents]
  constructor
  · rw [hev, dispatchedCompletions_append]
    have h0 : dispatchedCompletions
        ((transferFn transfer (.iso msg)).2.map Event.writeback) = [] := by
      simp [dispatchedCompletions, List.filterMap_map, Function.comp]
    rw [h0, hfn, hst]
    simp [dispatchedCompletions, handleTransferReturnValue]
  · intro i hi
    rw [hev, hfn]
    refine List.mem_append.mpr (Or.inl ?_)
    simp only [List.map_cons, List.map_map]
    refine List.mem_cons.mpr (Or.inr ?_)
    refine List.mem_map.mpr ?_
    exact ⟨i, List.mem_range.mpr hi, rfl⟩

/-- C2 witness: a two-packet isochronous transfer with packet lengths 3
and 1 completes with return value zero and per-packet writebacks. -/
theorem transferCallback_iso_completed_zero_witness :
    dispatchedCompletions
      ((LibusbDevice.mk true 0 true
          [(3, ⟨[(9, TransferCommand.iso ⟨3, 4, 2, [2, 2], 0, 0⟩)]⟩)]
          []).TransferCallback
        ⟨9, 3, .isochronous, .completed, 4, 4, [3, 1]⟩).2 =
      [(.iso ⟨3, 4, 2, [2, 2], 0, 0⟩, IPC_SUCCESS)] ∧
    ∀ i, i < (2 : Nat) →
      Event.writeback (Writeback.setPacketReturnValue i
          (List.getD [3, 1] i 0)) ∈
        ((LibusbDevice.mk true 0 true
            [(3, ⟨[(9, TransferCommand.iso ⟨3, 4, 2, [2, 2], 0, 0⟩)]⟩)]
            []).TransferCallback
          ⟨9, 3, .isochronous, .completed, 4, 4, [3, 1]⟩).2 :=
  transferCallback_iso_completed_zero
    (LibusbDevice.mk true 0 true
      [(3, ⟨[(9, TransferCommand.iso ⟨3, 4, 2, [2, 2], 0, 0⟩)]⟩)] [])
    ⟨9, 3, .isochronous, .completed, 4, 4, [3, 1]⟩
    ⟨3, 4, 2, [2, 2], 0, 0⟩ rfl rfl (by decide) (by decide)

theorem lookup_updateEndpoint_self (eps : List (Nat × TransferEndpoint))
    (k : Nat) (f : TransferEndpoint → TransferEndpoint) :
    (updateEndpoint eps k f).lookup k = some (f ((eps.lookup k).getD ⟨[]⟩)) := by
  induction eps with
  | nil => simp [updateEndpoint, List.lookup]
  | cons hd tl ih =>
      by_cases h : hd.1 = k
      · simp [updateEndpoint, h, List.lookup]
      · have hbeq : (k == hd.1) = false := by simp [Ne.symm h]
        simp [updateEndpoint, h, List.lookup, hbeq, ih]

theorem lookup_updateEndpoint_ne (eps : List (Nat × TransferEndpoint))
    (k : Nat) (f : TransferEndpoint → TransferEndpoint) (e : Nat) (h : e ≠ k) :
    (updateEndpoint eps k f).lookup e = eps.lookup e := by
  induction eps with
  | nil =>
      have hbeq : (e == k) = false := by simp [h]
      simp [updateEndpoint, List.lookup, hbeq]
  | cons hd tl ih =>
      by_cases hk : hd.1 = k
      · have hbeq : (e == k) = false := by simp [h]
        simp [updateEndpoint, hk, List.lookup, hbeq]
      · simp only [updateEndpoint, if_neg hk, List.lookup, ih]

theorem addTransfer_lookup_fresh (ep : TransferEndpoint) (th : Nat)
    (c : TransferCommand) (h : ep.m_transfers.lookup th = none) :
    (ep.AddTransfer th c).m_transfers.lookup th = some c := by
  simp [TransferEndpoint.AddTransfer, h, List.lookup]

theorem detachInterface_cases (host : Host) (s : LibusbDevice) :
    LibusbDevice.DetachInterface host s =
      (-1, [Event.log "Cannot detach without a valid device handle"]) ∨
    LibusbDevice.DetachInterface host s =
      (host.release_interface s.m_active_interface,
       [Event.hostReleaseInterface s.m_active_interface,
        Event.log "Failed to release interface"]) ∨
    LibusbDevice.DetachInterface host s =
      (0, [Event.hostReleaseInterface s.m_active_interface]) := by
  unfold LibusbDevice.DetachInterface
  by_cases h1 : ¬ s.m_handle_open
  · left
    simp [h1]
  · by_cases h2 : host.release_interface s.m_active_interface < 0 ∧
        host.release_interface s.m_active_interface ≠ LIBUSB_ERROR_NO_DEVICE
    · right
      left
      simp [h1, h2]
    · right
      right
      simp [h1, h2]

theorem detachInterface_no_claim (host : Host) (s : LibusbDevice) :
    ∀ i, Event.hostClaimInterface i ∉ (LibusbDevice.DetachInterface host s).2 := by
  intro i
  rcases detachInterface_cases host s with h | h | h <;> rw [h] <;> simp

theorem detachInterface_no_submit (host : Host) (s : LibusbDevice) :
    ∀ h, Event.submitHostTransfer h ∉ (LibusbDevice.DetachInterface host s).2 := by
  intro h
  rcases detachInterface_cases host s with hc | hc | hc <;> rw [hc] <;> simp

theorem attachInterface_cases (host : Host) (s : LibusbDevice)
    (interface : Nat) :
    LibusbDevice.AttachInterface host s interface =
      (s, -1, [Event.log "Cannot attach without a valid device handle"]) ∨
    (host.detach_kernel_driver interface < 0 ∧
     LibusbDevice.AttachInterface host s interface =
      (s, host.detach_kernel_driver interface,
       [Event.hostDetachKernelDriver interface,
        Event.log "Failed to detach kernel driver"])) ∨
    (host.claim_interface interface < 0 ∧
     LibusbDevice.AttachInterface host s interface =
      (s, host.claim_interface interface,
       [Event.hostDetachKernelDriver interface,
        Event.hostClaimInterface interface,
        Event.log "Failed to claim interface"])) ∨
    LibusbDevice.AttachInterface host s interface =
      ({s with m_active_interface := interface}, 0,
       [Event.hostDetachKernelDriver interface,
        Event.hostClaimInterface interface]) := by
  unfold LibusbDevice.AttachInterface
  by_cases h1 : ¬ s.m_handle_open
  · left
    simp [h1]
  · by_cases h2 : host.detach_kernel_driver interface < 0 ∧
        host.detach_kernel_driver interface ≠ LIBUSB_ERROR_NOT_FOUND ∧
        host.detach_kernel_driver interface ≠ LIBUSB_ERROR_NOT_SUPPORTED
    · right
      left
      exact ⟨h2.1, by simp [h1, h2]⟩
    · by_cases h3 : host.claim_interface interface < 0
      · right
        right
        left
        exact ⟨h3, by simp [h1, h2, h3]⟩
      · right
        right
        right
        simp [h1, h2, h3]

theorem attachInterface_no_submit (host : Host) (s : LibusbDevice)
    (interface : Nat) :
    ∀ h, Event.submitHostTransfer h ∉
      (LibusbDevice.AttachInterface host s interface).2.2 := by
  intro h
  rcases attachInterface_cases host s interface with
      hc | ⟨-, hc⟩ | ⟨-, hc⟩ | hc <;>
    rw [hc] <;> simp

theorem attachInterface_frame (host : Host) (s : LibusbDevice)
    (interface : Nat) :
    (LibusbDevice.AttachInterface host s interface).1.m_device_attached =
      s.m_device_attached ∧
    (LibusbDevice.AttachInterface host s interface).1.m_handle_open =
      s.m_handle_open ∧
    (LibusbDevice.AttachInterface host s interface).1.m_transfer_endpoints =
      s.m_transfer_endpoints ∧
    (LibusbDevice.AttachInterface host s interface).1.m_config_descriptors =
      s.m_config_descriptors := by
  rcases attachInterface_cases host s interface with
      hc | ⟨-, hc⟩ | ⟨-, hc⟩ | hc <;>
    rw [hc] <;> simp

theorem attachInterface_failure_state (host : Host) (s : LibusbDevice)
    (interface : Nat)
    (h : (LibusbDevice.AttachInterface host s interface).2.1 ≠ 0) :
    (LibusbDevice.AttachInterface host s interface).1 = s := by
  rcases attachInterface_cases host s interface with
      hc | ⟨-, hc⟩ | ⟨-, hc⟩ | hc <;>
    rw [hc] at h ⊢ <;> simp_all

theorem attachInterface_success_active (host : Host) (s : LibusbDevice)
    (interface : Nat)
    (h : (LibusbDevice.AttachInterface host s interface).2.1 = 0) :
    (LibusbDevice.AttachInterface host s interface).1.m_active_interface =
      interface := by
  rcases attachInterface_cases host s interface with
      hc | ⟨hlt, hc⟩ | ⟨hlt, hc⟩ | hc <;>
    rw [hc] at h ⊢ <;> simp_all

theorem changeInterface_cases (host : Host) (s : LibusbDevice)
    (interface : Nat) :
    (s.m_device_attached = false ∧
      LibusbDevice.ChangeInterface host s interface =
        some (s, LIBUSB_ERROR_NOT_FOUND, [])) ∨
    (s.m_device_attached = true ∧ s.numInterfaces0 = none ∧
      LibusbDevice.ChangeInterface host s interface = none) ∨
    (∃ n, s.m_device_attached = true ∧ s.numInterfaces0 = some n ∧
      n ≤ interface ∧
      LibusbDevice.ChangeInterface host s interface =
        some (s, LIBUSB_ERROR_NOT_FOUND, [])) ∨
    (∃ n, s.m_device_attached = true ∧ s.numInterfaces0 = some n ∧
      interface < n ∧ (LibusbDevice.DetachInterface host s).1 < 0 ∧
      LibusbDevice.ChangeInterface host s interface =
        some (s, LibusbDevice.DetachInterface host s)) ∨
    (∃ n, s.m_device_attached = true ∧ s.numInterfaces0 = some n ∧
      interface < n ∧ ¬ (LibusbDevice.DetachInterface host s).1 < 0 ∧
      LibusbDevice.ChangeInterface host s interface =
        some ((LibusbDevice.AttachInterface host s interface).1,
              (LibusbDevice.AttachInterface host s interface).2.1,
              (LibusbDevice.DetachInterface host s).2 ++
                (LibusbDevice.AttachInterface host s interface).2.2)) := by
  by_cases h1 : s.m_device_attached
  · cases hn : s.numInterfaces0 with
    | none =>
        right
        left
        exact ⟨h1, rfl, by simp [LibusbDevice.ChangeInterface, h1, hn]⟩
    | some n =>
        by_cases h2 : interface ≥ n
        · right
          right
          left
          exact ⟨n, h1, rfl, h2,
            by simp [LibusbDevice.ChangeInterface, h1, hn, h2]⟩
        · by_cases h3 : (LibusbDevice.DetachInterface host s).1 < 0
          · right
            right
            right
            left
            refine ⟨n, h1, rfl, by omega, h3, ?_⟩
            simp [LibusbDevice.ChangeInterface, h1, hn, h2, h3]
          · right
            right
            right
            right
            refine ⟨n, h1, rfl, by omega, h3, ?_⟩
            simp [LibusbDevice.ChangeInterface, h1, hn, h2, h3]
  · left
    refine ⟨by simpa using h1, ?_⟩
    simp [LibusbDevice.ChangeInterface, h1]

theorem changeInterface_endpoints (host : Host) (s : LibusbDevice)
    (interface : Nat) (r : LibusbDevice × Int × List Event)
    (h : LibusbDevice.ChangeInterface host s interface = some r) :
    r.1.m_transfer_endpoints = s.m_transfer_endpoints := by
  rcases changeInterface_cases host s interface with
      ⟨-, hc⟩ | ⟨-, -, hc⟩ | ⟨n, -, -, -, hc⟩ | ⟨n, -, -, -, -, hc⟩ |
        ⟨n, -, -, -, -, hc⟩ <;>
    rw [hc] at h
  · cases h
    rfl
  · cases h
  · cases h
    rfl
  · cases h
    rfl
  · cases h
    exact (attachInterface_frame host s interface).2.2.1

theorem changeInterface_no_submit (host : Host) (s : LibusbDevice)
    (interface : Nat) (r : LibusbDevice × Int × List Event)
    (h : LibusbDevice.ChangeInterface host s interface = some r) :
    ∀ th, Event.submitHostTransfer th ∉ r.2.2 := by
  intro th
  rcases changeInterface_cases host s interface with
      ⟨-, hc⟩ | ⟨-, -, hc⟩ | ⟨n, -, -, -, hc⟩ | ⟨n, -, -, -, -, hc⟩ |
        ⟨n, -, -, -, -, hc⟩ <;>
    rw [hc] at h
  · cases h
    simp
  · cases h
  · cases h
    simp
  · cases h
    exact detachInterface_no_submit host s th
  · cases h
    intro hmem
    rcases List.mem_append.mp hmem with hmem | hmem
    · exact detachInterface_no_submit host s th hmem
    · exact attachInterface_no_submit host s interface th hmem

/-- C5 counterexample: the claim "an endpoint with no pending (tracked)
transfers yields IPC_ENOENT" fails on the code: an endpoint whose map
entry exists but currently tracks no transfers (as after all of its
transfers completed) returns success, not IPC_ENOENT. -/
theorem cancelTransfer_empty_endpoint_counterexample :
    (LibusbDevice.mk true 0 true [(1, ⟨[]⟩)] []).trackedTransfers 1 = [] ∧
    ((LibusbDevice.mk true 0 true [(1, ⟨[]⟩)] []).CancelTransfer 1).2.1 ≠
      IPC_ENOENT := by
  decide

/-- C5 (amended): `CancelTransfer` returns IPC_ENOENT, with no state
change and no host request, exactly when the endpoint has no entry in
the endpoint map (a never-used endpoint); an endpoint whose entry exists
— even when it currently tracks no transfers — returns success after
requesting host cancellation of every tracked transfer; and in all cases
the device state (tracker included) is unchanged: removal only happens
later through `HandleTransfer`. -/
theorem cancelTransfer_spec (s : LibusbDevice) (endpoint : Nat) :
    (s.CancelTransfer endpoint).1 = s ∧
    (s.m_transfer_endpoints.lookup endpoint = none →
      (s.CancelTransfer endpoint).2.1 = IPC_ENOENT ∧
      (s.CancelTransfer endpoint).2.2 = [Event.log "Cancelling transfers"]) ∧
    (∀ ep, s.m_transfer_endpoints.lookup endpoint = some ep →
      (s.CancelTransfer endpoint).2.1 = IPC_SUCCESS ∧
      ∀ p ∈ ep.m_transfers,
        Event.cancelHostTransfer p.1 ∈ (s.CancelTransfer endpoint).2.2) := by
  refine ⟨?_, ?_, ?_⟩
  · unfold LibusbDevice.CancelTransfer
    cases hl : s.m_transfer_endpoints.lookup endpoint <;> simp
  · intro h
    simp [LibusbDevice.CancelTransfer, h]
  · intro ep h
    simp only [LibusbDevice.CancelTransfer, h]
    refine ⟨trivial, ?_⟩
    intro p hp
    unfold TransferEndpoint.CancelTransfers
    have hne : ep.m_transfers.isEmpty = false := by
      cases hm : ep.m_transfers with
      | nil =>
          rw [hm] at hp
          cases hp
      | cons a l => simp [hm]
    simp only [hne, Bool.false_eq_true, if_false]
    exact List.mem_cons.mpr (Or.inr (List.mem_cons.mpr
      (Or.inr (List.mem_map.mpr ⟨p, hp, rfl⟩))))

/-- C5 witness: an endpoint entry tracking one transfer yields success
and a host cancellation request for it. -/
theorem cancelTransfer_spec_witness :
    ((LibusbDevice.mk true 0 true
        [(2, ⟨[(11, TransferCommand.bulk ⟨2, 8, 0, 0⟩)]⟩)] []).CancelTransfer
      2).2.1 = IPC_SUCCESS ∧
    Event.cancelHostTransfer 11 ∈
      ((LibusbDevice.mk true 0 true
          [(2, ⟨[(11, TransferCommand.bulk ⟨2, 8, 0, 0⟩)]⟩)] []).CancelTransfer
        2).2.2 := by
  have h := (cancelTransfer_spec
    (LibusbDevice.mk true 0 true
      [(2, ⟨[(11, TransferCommand.bulk ⟨2, 8, 0, 0⟩)]⟩)] []) 2).2.2
    ⟨[(11, TransferCommand.bulk ⟨2, 8, 0, 0⟩)]⟩ (by decide)
  exact ⟨h.1, h.2 (11, TransferCommand.bulk ⟨2, 8, 0, 0⟩) (by decide)⟩

theorem detachInterface_no_kernel_detach (host : Host) (s : LibusbDevice) :
    ∀ i, Event.hostDetachKernelDriver i ∉
      (LibusbDevice.DetachInterface host s).2 := by
  intro i
  rcases detachInterface_cases host s with h | h | h <;> rw [h] <;> simp

/-- C7: `ChangeInterface` is detach-then-attach; when the detach result
is negative the change returns exactly that result without attempting
the attach (its events are the detach events, which contain no
kernel-driver-detach and no claim host call), and the device state —
the recorded active interface included — is unchanged.  Moreover the
active-interface field is assigned only by a successful
`AttachInterface`: a failing attach leaves it untouched and a succeeding
one sets it to the claimed interface. -/
theorem changeInterface_detach_fail_fast (host : Host) (s : LibusbDevice)
    (interface n : Nat)
    (hatt : s.m_device_attached = true)
    (hn : s.numInterfaces0 = some n) (hlt : interface < n)
    (hfail : (LibusbDevice.DetachInterface host s).1 < 0) :
    s.ChangeInterface host interface =
      some (s, (LibusbDevice.DetachInterface host s).1,
            (LibusbDevice.DetachInterface host s).2) ∧
    (∀ i, Event.hostClaimInterface i ∉
      (LibusbDevice.DetachInterface host s).2) ∧
    (∀ i, Event.hostDetachKernelDriver i ∉
      (LibusbDevice.DetachInterface host s).2) ∧
    (∀ h2 s2 i2, (LibusbDevice.AttachInterface h2 s2 i2).2.1 ≠ 0 →
      (LibusbDevice.AttachInterface h2 s2 i2).1.m_active_interface =
        s2.m_active_interface) ∧
    (∀ h2 s2 i2, (LibusbDevice.AttachInterface h2 s2 i2).2.1 = 0 →
      (LibusbDevice.AttachInterface h2 s2 i2).1.m_active_interface = i2) := by
  refine ⟨?_, detachInterface_no_claim host s,
    detachInterface_no_kernel_detach host s, ?_, ?_⟩
  · simp [LibusbDevice.ChangeInterface, hatt, hn, Nat.not_le.mpr hlt, hfail]
  · intro h2 s2 i2 hne
    rw [attachInterface_failure_state h2 s2 i2 hne]
  · intro h2 s2 i2 heq
    exact attachInterface_success_active h2 s2 i2 heq

/-- C7 witness: a host whose interface release fails with `-99`. -/
theorem changeInterface_detach_fail_fast_witness :
    (LibusbDevice.mk true 0 true []
        [⟨some ⟨0, [⟨[]⟩, ⟨[]⟩]⟩⟩]).ChangeInterface
      (Host.mk 0 (fun _ => 0) (fun _ _ => 0) (fun _ => 0) (fun _ => 0)
        (fun _ => -99) (fun _ => 0)) 1 =
    some (LibusbDevice.mk true 0 true [] [⟨some ⟨0, [⟨[]⟩, ⟨[]⟩]⟩⟩],
      (LibusbDevice.DetachInterface
        (Host.mk 0 (fun _ => 0) (fun _ _ => 0) (fun _ => 0) (fun _ => 0)
          (fun _ => -99) (fun _ => 0))
        (LibusbDevice.mk true 0 true [] [⟨some ⟨0, [⟨[]⟩, ⟨[]⟩]⟩⟩])).1,
      (LibusbDevice.DetachInterface
        (Host.mk 0 (fun _ => 0) (fun _ _ => 0) (fun _ => 0) (fun _ => 0)
          (fun _ => -99) (fun _ => 0))
        (LibusbDevice.mk true 0 true [] [⟨some ⟨0, [⟨[]⟩, ⟨[]⟩]⟩⟩])).2) :=
  (changeInterface_detach_fail_fast
    (Host.mk 0 (fun _ => 0) (fun _ _ => 0) (fun _ => 0) (fun _ => 0)
      (fun _ => -99) (fun _ => 0))
    (LibusbDevice.mk true 0 true [] [⟨some ⟨0, [⟨[]⟩, ⟨[]⟩]⟩⟩])
    1 2 rfl rfl (by decide) (by decide)).1

/-- C6: `Attach` is idempotent on the active interface: attached with
the active interface requested it returns success with no host call and
no state change; attached with a different interface requested it is
exactly a `ChangeInterface`; unattached, it opens the host device first
(the first event is the open), and the attached flag ends `true` exactly
when both the open and the interface attach succeeded; the returned
success flag equals the final attached flag. -/
theorem attach_spec (host : Host) (s : LibusbDevice) (interface : Nat) :
    (s.m_device_attached = true → interface = s.m_active_interface →
      s.Attach host interface = some (s, true, [])) ∧
    (s.m_device_attached = true → interface ≠ s.m_active_interface →
      s.Attach host interface =
        (s.ChangeInterface host interface).map
          (fun r => (r.1, r.2.1 == 0, r.2.2))) ∧
    (s.m_device_attached = false →
      ∀ r, s.Attach host interface = some r →
        r.2.2.head? = some Event.hostOpen ∧
        (r.1.m_device_attached = true ↔
          host.open_result = 0 ∧
          (LibusbDevice.AttachInterface host
            {s with m_device_attached := false, m_handle_open := true}
            interface).2.1 = 0) ∧
        r.2.1 = r.1.m_device_attached) := by
  refine ⟨?_, ?_, ?_⟩
  · intro hatt heq
    simp [LibusbDevice.Attach, hatt, heq]
  · intro hatt hne
    simp [LibusbDevice.Attach, hatt, hne]
  · intro hatt r hr
    have hcases :
        (host.open_result ≠ 0 ∧ s.Attach host interface =
          some ({s with m_device_attached := false}, false,
            [Event.hostOpen, Event.log "Failed to open"])) ∨
        (host.open_result = 0 ∧
          (LibusbDevice.AttachInterface host
            {s with m_device_attached := false, m_handle_open := true}
            interface).2.1 ≠ 0 ∧
          s.Attach host interface =
            some ((LibusbDevice.AttachInterface host
                {s with m_device_attached := false, m_handle_open := true}
                interface).1, false,
              Event.hostOpen ::
                (LibusbDevice.AttachInterface host
                  {s with m_device_attached := false, m_handle_open := true}
                  interface).2.2)) ∨
        (host.open_result = 0 ∧
          (LibusbDevice.AttachInterface host
            {s with m_device_attached := false, m_handle_open := true}
            interface).2.1 = 0 ∧
          s.Attach host interface =
            some ({(LibusbDevice.AttachInterface host
                {s with m_device_attached := false, m_handle_open := true}
                interface).1 with m_device_attached := true}, true,
              Event.hostOpen ::
                (LibusbDevice.AttachInterface host
                  {s with m_device_attached := false, m_handle_open := true}
                  interface).2.2)) := by
      by_cases hopen : host.open_result = 0
      · by_cases hfail : (LibusbDevice.AttachInterface host
            {s with m_device_attached := false, m_handle_open := true}
            interface).2.1 = 0
        · right
          right
          exact ⟨hopen, hfail,
            by simp [LibusbDevice.Attach, hatt, hopen, hfail]⟩
        · right
          left
          exact ⟨hopen, hfail,
            by simp [LibusbDevice.Attach, hatt, hopen, hfail]⟩
      · left
        exact ⟨hopen, by simp [LibusbDevice.Attach, hatt, hopen]⟩
    rcases hcases with ⟨hopen, hc⟩ | ⟨hopen, hfail, hc⟩ | ⟨hopen, hok, hc⟩ <;>
      rw [hc] at hr <;> cases hr
    · exact ⟨rfl, by simp [hopen], rfl⟩
    · have hframe := (attachInterface_frame host
        {s with m_device_attached := false, m_handle_open := true}
        interface).1
      refine ⟨rfl, ?_, ?_⟩
      · rw [hframe]
        simp [hopen, hfail]
      · rw [hframe]
    · exact ⟨rfl, by simp [hopen, hok], rfl⟩

theorem setAltSetting_no_submit (host : Host) (s : LibusbDevice)
    (alt_setting : Nat) :
    ∀ h, Event.submitHostTransfer h ∉
      (LibusbDevice.SetAltSetting host s alt_setting).2 := by
  intro h
  unfold LibusbDevice.SetAltSetting
  by_cases hatt : ¬ s.m_device_attached
  · simp [hatt]
  · simp [hatt]

/-- C4: when an attached device receives a control message that is a
standard host-to-device SET_CONFIGURATION (recipient device) or
SET_INTERFACE (recipient interface) request, `SubmitTransfer` handles it
via host configuration calls: the endpoint trackers are untouched, no
host transfer is submitted, and whenever the returned code is zero an
IPC reply worth the command's transfer length has been enqueued. -/
theorem submitCtrl_intercepted_requests (host : Host) (s : LibusbDevice)
    (cmd : CtrlMessage) (th : Nat)
    (hatt : s.m_device_attached = true)
    (hdr : ctrlHeader cmd =
        USBHDR DIR_HOST2DEVICE TYPE_STANDARD REC_DEVICE
          REQUEST_SET_CONFIGURATION ∨
      ctrlHeader cmd =
        USBHDR DIR_HOST2DEVICE TYPE_STANDARD REC_INTERFACE
          REQUEST_SET_INTERFACE) :
    ∀ r, s.SubmitCtrlTransfer host cmd th = some r →
      r.1.m_transfer_endpoints = s.m_transfer_endpoints ∧
      (∀ h, Event.submitHostTransfer h ∉ r.2.2) ∧
      (r.2.1 = 0 →
        Event.enqueueReply cmd.ios_request (Int.ofNat cmd.length) ∈ r.2.2) := by
  have e9 : USBHDR DIR_HOST2DEVICE TYPE_STANDARD REC_DEVICE
      REQUEST_SET_CONFIGURATION = 9 := by decide
  have e267 : USBHDR DIR_HOST2DEVICE TYPE_STANDARD REC_INTERFACE
      REQUEST_SET_INTERFACE = 267 := by decide
  intro r hr
  rcases hdr with hdr | hdr
  · -- SET_CONFIGURATION
    by_cases hret : host.set_configuration cmd.value = 0
    · have hc : s.SubmitCtrlTransfer host cmd th =
          some (s, host.set_configuration cmd.value,
            [Event.hostSetConfiguration cmd.value,
             Event.enqueueReply cmd.ios_request (Int.ofNat cmd.length)]) := by
        simp [LibusbDevice.SubmitCtrlTransfer, hatt, hdr, e9, e267, hret]
      rw [hc] at hr
      cases hr
      exact ⟨rfl, by simp, fun _ => by simp⟩
    · have hc : s.SubmitCtrlTransfer host cmd th =
          some (s, host.set_configuration cmd.value,
            [Event.hostSetConfiguration cmd.value]) := by
        simp [LibusbDevice.SubmitCtrlTransfer, hatt, hdr, e9, e267, hret]
      rw [hc] at hr
      cases hr
      exact ⟨rfl, by simp, fun h0 => absurd h0 hret⟩
  · -- SET_INTERFACE
    by_cases hidx : cmd.index % 256 = s.m_active_interface
    · -- no interface change; SetAltSetting on s
      by_cases halt : host.set_alt_setting s.m_active_interface
          (cmd.value % 256) = 0
      · have hc : s.SubmitCtrlTransfer host cmd th =
            some (s, (0 : Int),
              [Event.hostSetAltSetting s.m_active_interface (cmd.value % 256),
               Event.enqueueReply cmd.ios_request (Int.ofNat cmd.length)]) := by
          simp [LibusbDevice.SubmitCtrlTransfer, hatt, hdr, e9, e267, hidx,
            LibusbDevice.SetAltSetting, halt]
        rw [hc] at hr
        cases hr
        exact ⟨rfl, by simp, fun _ => by simp⟩
      · have hc : s.SubmitCtrlTransfer host cmd th =
            some (s, host.set_alt_setting s.m_active_interface (cmd.value % 256),
              [Event.hostSetAltSetting s.m_active_interface
                (cmd.value % 256)]) := by
          simp [LibusbDevice.SubmitCtrlTransfer, hatt, hdr, e9, e267, hidx,
            LibusbDevice.SetAltSetting, halt]
        rw [hc] at hr
        cases hr
        exact ⟨rfl, by simp, fun h0 => absurd h0 halt⟩
    · -- interface change first
      cases hch : LibusbDevice.ChangeInterface host s (cmd.index % 256) with
      | none =>
          have hc : s.SubmitCtrlTransfer host cmd th = none := by
            simp [LibusbDevice.SubmitCtrlTransfer, hatt, hdr, e9, e267, hidx,
              hch]
          rw [hc] at hr
          cases hr
      | some rc =>
          have hend : rc.1.m_transfer_endpoints = s.m_transfer_endpoints :=
            changeInterface_endpoints host s (cmd.index % 256) rc hch
          have hnos := changeInterface_no_submit host s (cmd.index % 256) rc hch
          by_cases hneg : rc.2.1 < 0
          · have hc : s.SubmitCtrlTransfer host cmd th =
                some (rc.1, rc.2.1,
                  rc.2.2 ++ [Event.log "Failed to change interface"]) := by
              simp [LibusbDevice.SubmitCtrlTransfer, hatt, hdr, e9, e267, hidx,
                hch, hneg]
            rw [hc] at hr
            cases hr
            refine ⟨hend, ?_, ?_⟩
            · intro h hmem
              rcases List.mem_append.mp hmem with hmem | hmem
              · exact hnos h hmem
              · simp at hmem
            · intro h0
              have h0' : rc.2.1 = 0 := h0
              omega
          · by_cases halt : host.set_alt_setting rc.1.m_active_interface
                (cmd.value % 256) = 0
            · by_cases hatt2 : rc.1.m_device_attached = true
              · have hc : s.SubmitCtrlTransfer host cmd th =
                    some (rc.1, (0 : Int),
                      rc.2.2 ++
                        [Event.hostSetAltSetting rc.1.m_active_interface
                          (cmd.value % 256)] ++
                        [Event.enqueueReply cmd.ios_request
                          (Int.ofNat cmd.length)]) := by
                  simp [LibusbDevice.SubmitCtrlTransfer, hatt, hdr, e9, e267,
                    hidx, hch, hneg, LibusbDevice.SetAltSetting, hatt2, halt]
                rw [hc] at hr
                cases hr
                refine ⟨hend, ?_, fun _ => by simp⟩
                intro h hmem
                rcases List.mem_append.mp hmem with hmem | hmem
                · rcases List.mem_append.mp hmem with hmem | hmem
                  · exact hnos h hmem
                  · simp at hmem
                · simp at hmem
              · -- SetAltSetting rejects: returns LIBUSB_ERROR_NOT_FOUND ≠ 0
                have hc : s.SubmitCtrlTransfer host cmd th =
                    some (rc.1, LIBUSB_ERROR_NOT_FOUND, rc.2.2 ++ []) := by
                  simp [LibusbDevice.SubmitCtrlTransfer, hatt, hdr, e9, e267,
                    hidx, hch, hneg, LibusbDevice.SetAltSetting, hatt2,
                    LIBUSB_ERROR_NOT_FOUND]
                rw [hc] at hr
                cases hr
                refine ⟨hend, ?_, ?_⟩
                · intro h hmem
                  rcases List.mem_append.mp hmem with hmem | hmem
                  · exact hnos h hmem
                  · simp at hmem
                · intro h0
                  simp [LIBUSB_ERROR_NOT_FOUND] at h0
            · by_cases hatt2 : rc.1.m_device_attached = true
              · have hc : s.SubmitCtrlTransfer host cmd th =
                    some (rc.1,
                      host.set_alt_setting rc.1.m_active_interface
                        (cmd.value % 256),
                      rc.2.2 ++
                        [Event.hostSetAltSetting rc.1.m_active_interface
                          (cmd.value % 256)]) := by
                  simp [LibusbDevice.SubmitCtrlTransfer, hatt, hdr, e9, e267,
                    hidx, hch, hneg, LibusbDevice.SetAltSetting, hatt2, halt]
                rw [hc] at hr
                cases hr
                refine ⟨hend, ?_, fun h0 => absurd h0 halt⟩
                intro h hmem
                rcases List.mem_append.mp hmem with hmem | hmem
                · exact hnos h hmem
                · simp at hmem
              · have hc : s.SubmitCtrlTransfer host cmd th =
                    some (rc.1, LIBUSB_ERROR_NOT_FOUND, rc.2.2 ++ []) := by
                  simp [LibusbDevice.SubmitCtrlTransfer, hatt, hdr, e9, e267,
                    hidx, hch, hneg, LibusbDevice.SetAltSetting, hatt2,
                    LIBUSB_ERROR_NOT_FOUND]
                rw [hc] at hr
                cases hr
                refine ⟨hend, ?_, ?_⟩
                · intro h hmem
                  rcases List.mem_append.mp hmem with hmem | hmem
                  · exact hnos h hmem
                  · simp at hmem
                · intro h0
                  simp [LIBUSB_ERROR_NOT_FOUND] at h0

/-- C6 witness: attaching the already-active interface of an attached
device is a no-op returning success. -/
theorem attach_spec_witness :
    (LibusbDevice.mk true 1 true [] []).Attach
      (Host.mk 0 (fun _ => 0) (fun _ _ => 0) (fun _ => 0) (fun _ => 0)
        (fun _ => 0) (fun _ => 0)) 1 =
    some (LibusbDevice.mk true 1 true [] [], true, []) :=
  (attach_spec
    (Host.mk 0 (fun _ => 0) (fun _ _ => 0) (fun _ => 0) (fun _ => 0)
      (fun _ => 0) (fun _ => 0))
    (LibusbDevice.mk true 1 true [] []) 1).1 rfl rfl

/-- C4 witness: a SET_CONFIGURATION request with value 1 on an attached
device whose host accepts the configuration: the tracker is untouched,
nothing is submitted, and the reply worth the transfer length is
enqueued. -/
theorem submitCtrl_intercepted_requests_witness :
    ((LibusbDevice.mk true 0 true [] [], (0 : Int),
        [Event.hostSetConfiguration 1,
         Event.enqueueReply 42 (Int.ofNat 8)]) :
          LibusbDevice × Int × List Event).1.m_transfer_endpoints =
      (LibusbDevice.mk true 0 true [] []).m_transfer_endpoints ∧
    (∀ h, Event.submitHostTransfer h ∉
      ((LibusbDevice.mk true 0 true [] [], (0 : Int),
        [Event.hostSetConfiguration 1,
         Event.enqueueReply 42 (Int.ofNat 8)]) :
          LibusbDevice × Int × List Event).2.2) ∧
    (((LibusbDevice.mk true 0 true [] [], (0 : Int),
        [Event.hostSetConfiguration 1,
         Event.enqueueReply 42 (Int.ofNat 8)]) :
          LibusbDevice × Int × List Event).2.1 = 0 →
      Event.enqueueReply 42 (Int.ofNat 8) ∈
        ((LibusbDevice.mk true 0 true [] [], (0 : Int),
          [Event.hostSetConfiguration 1,
           Event.enqueueReply 42 (Int.ofNat 8)]) :
            LibusbDevice × Int × List Event).2.2) :=
  submitCtrl_intercepted_requests
    (Host.mk 0 (fun _ => 0) (fun _ _ => 0) (fun _ => 0) (fun _ => 0)
      (fun _ => 0) (fun _ => 0))
    (LibusbDevice.mk true 0 true [] [])
    (CtrlMessage.mk 0 9 1 0 8 0 42) 3 rfl (Or.inl (by decide))
    (LibusbDevice.mk true 0 true [] [], (0 : Int),
      [Event.hostSetConfiguration 1, Event.enqueueReply 42 (Int.ofNat 8)])
    (by decide)

theorem getConfigurations_length (l : List LibusbConfigDescriptor) :
    (l.filterMap (fun cd => cd.m_descriptor)).length +
      (l.filter (fun cd => ¬ cd.IsValid)).length = l.length := by
  induction l with
  | nil => simp
  | cons hd tl ih =>
      cases hd with
      | mk d =>
          cases d <;>
            simp only [List.filterMap_cons, List.filter_cons] <;>
            simp_all [LibusbConfigDescriptor.IsValid] <;> omega

/-- C8 counterexample: the claim extends graceful degradation to all
descriptor indices, but an out-of-range interface index in
`GetEndpoints` is only `_assert_`-checked — execution continues into an
out-of-bounds host-array access (modelled `none`) instead of returning
an empty list: here a valid configuration 0 with zero interfaces is
asked for interface 0. -/
theorem getEndpoints_oob_interface_counterexample :
    (LibusbDevice.mk false 0 false [] [⟨some ⟨0, []⟩⟩]).GetEndpoints 0 0 0 ≠
      some [] ∧
    (LibusbDevice.mk false 0 false [] [⟨some ⟨0, []⟩⟩]).GetEndpoints 0 0 0 =
      none := by
  decide

/-- C8 (amended): descriptor handling degrades gracefully for the config
index: a configuration descriptor that cannot be read at construction is
recorded as invalid rather than failing construction (one cached entry
per configuration), `GetConfigurations` skips exactly the invalid
entries, and an out-of-range or invalid config index makes
`GetInterfaces` and `GetEndpoints` return an empty list.  Out-of-range
interface or alternate-setting indices in `GetEndpoints`, however, are
only assertion-checked and read out of bounds instead of returning
empty. -/
theorem descriptor_graceful_config_index (s : LibusbDevice)
    (results : List (Except Int ConfigDescriptorData))
    (config i a : Nat)
    (hbad : s.m_config_descriptors[config]? = none ∨
      ∃ cd, s.m_config_descriptors[config]? = some cd ∧
        cd.m_descriptor = none) :
    (constructConfigDescriptors results).length = results.length ∧
    (∀ e : Int, makeLibusbConfigDescriptor (.error e) = ⟨none⟩) ∧
    s.GetConfigurations.length +
      (s.m_config_descriptors.filter (fun cd => ¬ cd.IsValid)).length =
      s.m_config_descriptors.length ∧
    s.GetInterfaces config = [] ∧
    s.GetEndpoints config i a = some [] := by
  refine ⟨by simp [constructConfigDescriptors], fun e => rfl,
    getConfigurations_length s.m_config_descriptors, ?_, ?_⟩
  · rcases hbad with h | ⟨cd, h, hinv⟩
    · simp [LibusbDevice.GetInterfaces, h]
    · simp [LibusbDevice.GetInterfaces, h, hinv]
  · rcases hbad with h | ⟨cd, h, hinv⟩
    · simp [LibusbDevice.GetEndpoints, h]
    · simp [LibusbDevice.GetEndpoints, h, hinv]

/-- C8 witness: a device with one unreadable (invalid) configuration
descriptor: config index 0 is invalid, config index 1 is out of range;
both degrade to empty results. -/
theorem descriptor_graceful_config_index_witness :
    (constructConfigDescriptors [Except.error (-1)]).length =
      ([Except.error (-1)] : List (Except Int ConfigDescriptorData)).length ∧
    (∀ e : Int, makeLibusbConfigDescriptor (.error e) = ⟨none⟩) ∧
    (LibusbDevice.mk false 0 false [] [⟨none⟩]).GetConfigurations.length +
      ((LibusbDevice.mk false 0 false [] [⟨none⟩]).m_config_descriptors.filter
        (fun cd => ¬ cd.IsValid)).length =
      (LibusbDevice.mk false 0 false [] [⟨none⟩]).m_config_descriptors.length ∧
    (LibusbDevice.mk false 0 false [] [⟨none⟩]).GetInterfaces 0 = [] ∧
    (LibusbDevice.mk false 0 false [] [⟨none⟩]).GetEndpoints 0 2 3 =
      some [] :=
  descriptor_graceful_config_index
    (LibusbDevice.mk false 0 false [] [⟨none⟩]) [Except.error (-1)] 0 2 3
    (Or.inr ⟨⟨none⟩, by decide, rfl⟩)

theorem getD_lookup_eq (s : LibusbDevice) (e : Nat) :
    (s.m_transfer_endpoints.lookup e).getD ⟨[]⟩ = ⟨s.trackedTransfers e⟩ := by
  unfold LibusbDevice.trackedTransfers
  cases s.m_transfer_endpoints.lookup e <;> simp

theorem trackedTransfers_update_self (s : LibusbDevice) (k : Nat)
    (f : TransferEndpoint → TransferEndpoint) :
    ({s with m_transfer_endpoints :=
        updateEndpoint s.m_transfer_endpoints k f} : LibusbDevice).trackedTransfers
      k = (f ((s.m_transfer_endpoints.lookup k).getD ⟨[]⟩)).m_transfers := by
  unfold LibusbDevice.trackedTransfers
  simp only [lookup_updateEndpoint_self]

theorem trackedTransfers_update_ne (s : LibusbDevice) (k : Nat)
    (f : TransferEndpoint → TransferEndpoint) (e : Nat) (h : e ≠ k) :
    ({s with m_transfer_endpoints :=
        updateEndpoint s.m_transfer_endpoints k f} : LibusbDevice).trackedTransfers
      e = s.trackedTransfers e := by
  unfold LibusbDevice.trackedTransfers
  simp only [lookup_updateEndpoint_ne s.m_transfer_endpoints k f e h]

/-- C10: every control transfer is tracked in and dispatched from
endpoint 0: `SubmitTransfer(CtrlMessage)` (for a non-intercepted
request, whatever its direction, recipient or `wIndex`) registers the
transfer under endpoint 0 and leaves every other endpoint's tracker
unchanged; `CtrlTransferCallback` looks the transfer up in endpoint 0's
tracker and touches no other endpoint; and bulk, interrupt and
isochronous submissions with a nonzero endpoint never touch endpoint 0's
tracker. -/
theorem control_transfers_use_endpoint_zero (host : Host) (s : LibusbDevice)
    (cmd : CtrlMessage) (bcmd : BulkMessage) (icmd : IntrMessage)
    (socmd : IsoMessage) (transfer : LibusbTransfer) (th : Nat)
    (hatt : s.m_device_attached = true)
    (hne1 : ctrlHeader cmd ≠
      USBHDR DIR_HOST2DEVICE TYPE_STANDARD REC_INTERFACE REQUEST_SET_INTERFACE)
    (hne2 : ctrlHeader cmd ≠
      USBHDR DIR_HOST2DEVICE TYPE_STANDARD REC_DEVICE
        REQUEST_SET_CONFIGURATION)
    (hfresh : (s.trackedTransfers 0).lookup th = none)
    (hb : bcmd.endpoint ≠ 0) (hi : icmd.endpoint ≠ 0)
    (hs : socmd.endpoint ≠ 0) :
    (∀ r, s.SubmitCtrlTransfer host cmd th = some r →
      (r.1.trackedTransfers 0).lookup th = some (.ctrl cmd) ∧
      ∀ e, e ≠ 0 → r.1.trackedTransfers e = s.trackedTransfers e) ∧
    ((s.CtrlTransferCallback transfer).2 =
      ((⟨s.trackedTransfers 0⟩ : TransferEndpoint).HandleTransfer transfer
        (ctrlTransferFn transfer)).2 ∧
      ∀ e, e ≠ 0 →
        (s.CtrlTransferCallback transfer).1.trackedTransfers e =
          s.trackedTransfers e) ∧
    ((s.SubmitBulkTransfer host bcmd th).1.trackedTransfers 0 =
      s.trackedTransfers 0 ∧
     (s.SubmitIntrTransfer host icmd th).1.trackedTransfers 0 =
      s.trackedTransfers 0 ∧
     (s.SubmitIsoTransfer host socmd th).1.trackedTransfers 0 =
      s.trackedTransfers 0) := by
  refine ⟨?_, ⟨?_, ?_⟩, ?_, ?_, ?_⟩
  · intro r hr
    have hc : s.SubmitCtrlTransfer host cmd th =
        some (LibusbDevice.mk s.m_device_attached s.m_active_interface
            s.m_handle_open
            (updateEndpoint s.m_transfer_endpoints 0
              (fun ep => ep.AddTransfer th (.ctrl cmd)))
            s.m_config_descriptors,
          host.submit_transfer th, [Event.submitHostTransfer th]) := by
      simp [LibusbDevice.SubmitCtrlTransfer, hatt, hne1, hne2]
    rw [hc] at hr
    cases hr
    constructor
    · rw [trackedTransfers_update_self, getD_lookup_eq]
      exact addTransfer_lookup_fresh ⟨s.trackedTransfers 0⟩ th (.ctrl cmd) hfresh
    · intro e he
      exact trackedTransfers_update_ne s 0 _ e he
  · simp only [LibusbDevice.CtrlTransferCallback, getD_lookup_eq]
  · intro e he
    simp only [LibusbDevice.CtrlTransferCallback]
    exact trackedTransfers_update_ne s 0 _ e he
  · simp only [LibusbDevice.SubmitBulkTransfer, hatt]
    rw [if_neg (by simp)]
    exact trackedTransfers_update_ne s bcmd.endpoint _ 0 (Ne.symm hb)
  · simp only [LibusbDevice.SubmitIntrTransfer, hatt]
    rw [if_neg (by simp)]
    exact trackedTransfers_update_ne s icmd.endpoint _ 0 (Ne.symm hi)
  · simp only [LibusbDevice.SubmitIsoTransfer, hatt]
    rw [if_neg (by simp)]
    exact trackedTransfers_update_ne s socmd.endpoint _ 0 (Ne.symm hs)

/-- C10 witness: a device-to-host GET_DESCRIPTOR control request
(header `0x8006`) is tracked under endpoint 0 and leaves all other
endpoints untouched. -/
theorem control_transfers_use_endpoint_zero_witness :
    ((LibusbDevice.mk true 0 true
        [(0, ⟨[(5, TransferCommand.ctrl
          (CtrlMessage.mk 128 6 256 0 18 0 7))]⟩)] []).trackedTransfers
      0).lookup 5 = some (.ctrl (CtrlMessage.mk 128 6 256 0 18 0 7)) ∧
    ∀ e, e ≠ 0 →
      (LibusbDevice.mk true 0 true
        [(0, ⟨[(5, TransferCommand.ctrl
          (CtrlMessage.mk 128 6 256 0 18 0 7))]⟩)] []).trackedTransfers e =
      (LibusbDevice.mk true 0 true [] []).trackedTransfers e :=
  (control_transfers_use_endpoint_zero
    (Host.mk 0 (fun _ => 0) (fun _ _ => 0) (fun _ => 0) (fun _ => 0)
      (fun _ => 0) (fun _ => 0))
    (LibusbDevice.mk true 0 true [] [])
    (CtrlMessage.mk 128 6 256 0 18 0 7)
    ⟨129, 64, 0, 0⟩ ⟨131, 8, 0, 0⟩ ⟨132, 16, 2, [8, 8], 0, 0⟩
    ⟨5, 0, .control, .completed, 10, 2, []⟩ 5
    rfl (by decide) (by decide) (by decide) (by decide) (by decide)
    (by decide)).1
    (LibusbDevice.mk true 0 true
      [(0, ⟨[(5, TransferCommand.ctrl (CtrlMessage.mk 128 6 256 0 18 0 7))]⟩)]
      [],
     (0 : Int), [Event.submitHostTransfer 5])
    (by decide)

end LibusbDev
